import Mathlib

/-
Verification of the dropout-predicting dashboard (src/app.py).

The program has one piece of pure logic, `predict_promotion`, and three
SQLite accessors over a single `students` table keyed by `student_id`:
`insert_student_data` (INSERT OR REPLACE), `get_all_students`
(SELECT * ORDER BY prediction_date DESC, catching any exception and
returning an empty DataFrame), and `delete_student` (DELETE WHERE
student_id = ?).  The table is embedded as a list of rows; the
CURRENT_TIMESTAMP default of the `prediction_date` column is embedded as
an explicit clock value passed to each write.
-/

namespace Dropout

/-- The family-income selectbox offers exactly "low", "medium", "high". -/
inductive Income where
  | low
  | medium
  | high
deriving DecidableEq, Repr

/-- One row of the `students` table (schema created by `initialize_database`).
REAL columns are embedded as rationals, INTEGER columns as integers, the
TIMESTAMP column as a natural-number clock value. -/
structure Row where
  student_id : Int
  school_satisfaction : ℚ
  attendance_rate : ℚ
  failed_courses : Int
  commute_time : Int
  disciplinary_incidents : Int
  homework_completion : ℚ
  family_income : Income
  promotion_status : String
  prediction_date : Nat
deriving DecidableEq, Repr

/-- The `students` table contents. -/
abbrev Store := List Row

set_option linter.unusedVariables false in
/-- `predict_promotion` from src/app.py lines 45-51: the six-clause rule.
The `income` parameter is accepted but unused, exactly as in the source. -/
def predict_promotion (satisfaction attendance : ℚ)
    (failed_courses commute disciplinary : Int) (homework : ℚ)
    (income : Income) : String :=
  if satisfaction > 3 ∧ attendance > 70 ∧ failed_courses ≤ 2 ∧
      commute ≤ 40 ∧ disciplinary ≤ 2 ∧ homework > 80 then
    "Promoted"
  else
    "At Risk of Dropout"

/-- The row written by `insert_student_data`: the eight explicit column
values plus the `prediction_date` filled in by the column default at the
moment of the write. -/
def mkRow (student_id : Int) (satisfaction attendance : ℚ)
    (failed_courses commute disciplinary : Int) (homework : ℚ)
    (family_income : Income) (promotion_status : String) (now : Nat) : Row :=
  { student_id := student_id
    school_satisfaction := satisfaction
    attendance_rate := attendance
    failed_courses := failed_courses
    commute_time := commute
    disciplinary_incidents := disciplinary
    homework_completion := homework
    family_income := family_income
    promotion_status := promotion_status
    prediction_date := now }

/-- `insert_student_data` from src/app.py lines 53-72: INSERT OR REPLACE
keyed on `student_id`.  SQLite first deletes any row conflicting on the
primary key, then inserts the new row; `prediction_date` is not listed in
the INSERT so it takes the column default CURRENT_TIMESTAMP, embedded as
the clock value `now`. -/
def insert_student_data (s : Store) (student_id : Int)
    (satisfaction attendance : ℚ)
    (failed_courses commute disciplinary : Int) (homework : ℚ)
    (family_income : Income) (promotion_status : String) (now : Nat) : Store :=
  s.filter (fun r => r.student_id != student_id) ++
    [mkRow student_id satisfaction attendance failed_courses commute
      disciplinary homework family_income promotion_status now]

/-- Newest-first order on rows: `ORDER BY prediction_date DESC`. -/
def byDateDesc (a b : Row) : Prop := b.prediction_date ≤ a.prediction_date

instance : DecidableRel byDateDesc := fun a b =>
  inferInstanceAs (Decidable (b.prediction_date ≤ a.prediction_date))

instance : IsTotal Row byDateDesc :=
  ⟨fun a b => (Nat.le_total a.prediction_date b.prediction_date).symm⟩

instance : IsTrans Row byDateDesc :=
  ⟨fun _ _ _ hab hbc => Nat.le_trans hbc hab⟩

/-- `get_all_students` from src/app.py lines 74-83: on success it returns
all rows ordered by `prediction_date` descending; any exception raised by
the underlying database is caught and an empty DataFrame is returned.  The
database world is embedded as `Except String Store` (a failing connection
carries its error message). -/
def get_all_students (db : Except String Store) : Store :=
  match db with
  | .ok s => s.insertionSort byDateDesc
  | .error _ => []

/-- `delete_student` from src/app.py lines 85-96: DELETE WHERE
student_id = ?, returning True on success (SQLite raises no error when no
row matches). -/
def delete_student (s : Store) (student_id : Int) : Store × Bool :=
  (s.filter (fun r => r.student_id != student_id), true)

/-- The Predict & Save handler, src/app.py lines 161-170: compute the
label with `predict_promotion` and store it with `insert_student_data` in
the same step. -/
def predict_and_save (s : Store) (student_id : Int)
    (satisfaction attendance : ℚ)
    (failed_courses commute disciplinary : Int) (homework : ℚ)
    (family_income : Income) (now : Nat) : Store :=
  insert_student_data s student_id satisfaction attendance failed_courses
    commute disciplinary homework family_income
    (predict_promotion satisfaction attendance failed_courses commute
      disciplinary homework family_income)
    now

/-- The store-mutating operations the UI can perform: a Predict & Save
submission, or a delete-by-id. -/
inductive Op where
  | submit (student_id : Int) (satisfaction attendance : ℚ)
      (failed_courses commute disciplinary : Int) (homework : ℚ)
      (family_income : Income)
  | delete (student_id : Int)

/-- One UI action applied to the store paired with the clock; a submission
advances the clock. -/
def step (st : Store × Nat) (op : Op) : Store × Nat :=
  match op with
  | .submit id sat att f c d hw inc =>
      (predict_and_save st.1 id sat att f c d hw inc st.2, st.2 + 1)
  | .delete id => ((delete_student st.1 id).1, st.2)

/-- The store state reached from the freshly created (empty) table by a
sequence of UI actions. -/
def run (ops : List Op) : Store × Nat :=
  List.foldl step ([], 0) ops

/-- Every stored row's `promotion_status` is the classification rule
applied to that row's own input fields. -/
def consistent (s : Store) : Prop :=
  ∀ r ∈ s, r.promotion_status =
    predict_promotion r.school_satisfaction r.attendance_rate
      r.failed_courses r.commute_time r.disciplinary_incidents
      r.homework_completion r.family_income

/-- Membership in the store after an upsert: a row is either an old row
whose key differs from the upserted one, or the freshly written row. -/
theorem mem_insert_student_data {s : Store} {student_id : Int}
    {satisfaction attendance : ℚ} {failed_courses commute disciplinary : Int}
    {homework : ℚ} {family_income : Income} {promotion_status : String}
    {now : Nat} {r : Row} :
    r ∈ insert_student_data s student_id satisfaction attendance
        failed_courses commute disciplinary homework family_income
        promotion_status now ↔
      (r ∈ s ∧ r.student_id ≠ student_id) ∨
        r = mkRow student_id satisfaction attendance failed_courses commute
          disciplinary homework family_income promotion_status now := by
  simp [insert_student_data, List.mem_filter, bne_iff_ne]

/-- After an upsert, exactly one stored row carries the upserted key. -/
theorem countP_insert_student_data (s : Store) (student_id : Int)
    (satisfaction attendance : ℚ) (failed_courses commute disciplinary : Int)
    (homework : ℚ) (family_income : Income) (promotion_status : String)
    (now : Nat) :
    (insert_student_data s student_id satisfaction attendance failed_courses
        commute disciplinary homework family_income promotion_status
        now).countP (fun r => r.student_id == student_id) = 1 := by
  rw [insert_student_data, List.countP_append]
  have h0 : (s.filter (fun r => r.student_id != student_id)).countP
      (fun r => r.student_id == student_id) = 0 := by
    rw [List.countP_eq_zero]
    intro a ha
    have hne := (List.mem_filter.mp ha).2
    simp only [bne_iff_ne, ne_eq] at hne
    simp [hne]
  simp [h0, mkRow]

/-- A single UI action preserves consistency of the stored labels. -/
theorem consistent_step {st : Store × Nat} (h : consistent st.1) (op : Op) :
    consistent (step st op).1 := by
  cases op with
  | submit id sat att f c d hw inc =>
      intro r hr
      rcases mem_insert_student_data.mp hr with ⟨hmem, _⟩ | rfl
      · exact h r hmem
      · rfl
  | delete id =>
      intro r hr
      exact h r (List.mem_filter.mp hr).1

/-- Folding any list of UI actions from a consistent state stays
consistent. -/
theorem consistent_foldl (ops : List Op) :
    ∀ st : Store × Nat, consistent st.1 →
      consistent (List.foldl step st ops).1 := by
  induction ops with
  | nil => intro st h; exact h
  | cons op ops ih => intro st h; exact ih _ (consistent_step h op)

/-- C1: the classification rule returns "Promoted" exactly when all six
threshold clauses (satisfaction > 3, attendance > 70, failed ≤ 2,
commute ≤ 40, disciplinary ≤ 2, homework > 80) hold, and
"At Risk of Dropout" exactly when at least one clause fails; in
particular, when exactly one clause fails the result is
"At Risk of Dropout". -/
theorem predict_promotion_spec (satisfaction attendance : ℚ)
    (failed_courses commute disciplinary : Int) (homework : ℚ)
    (income : Income) :
    (predict_promotion satisfaction attendance failed_courses commute
        disciplinary homework income = "Promoted" ↔
      (satisfaction > 3 ∧ attendance > 70 ∧ failed_courses ≤ 2 ∧
        commute ≤ 40 ∧ disciplinary ≤ 2 ∧ homework > 80)) ∧
    (predict_promotion satisfaction attendance failed_courses commute
        disciplinary homework income = "At Risk of Dropout" ↔
      ¬(satisfaction > 3 ∧ attendance > 70 ∧ failed_courses ≤ 2 ∧
        commute ≤ 40 ∧ disciplinary ≤ 2 ∧ homework > 80)) := by
  by_cases h : (satisfaction > 3 ∧ attendance > 70 ∧ failed_courses ≤ 2 ∧
      commute ≤ 40 ∧ disciplinary ≤ 2 ∧ homework > 80)
  · refine ⟨by simp [predict_promotion, h], ?_⟩
    rw [predict_promotion, if_pos h]
    constructor
    · intro hs
      exact absurd hs (by decide)
    · intro hn
      exact absurd h hn
  · refine ⟨?_, by simp [predict_promotion, h]⟩
    rw [predict_promotion, if_neg h]
    constructor
    · intro hs
      exact absurd hs.symm (by decide)
    · intro hp
      exact absurd hp h

/-- C2: from the freshly initialized (empty) table, every sequence of UI
operations (Predict & Save submissions and deletes) leaves a store in
which every row's `promotion_status` equals the classification rule
applied to that row's stored input fields. -/
theorem reachable_consistent (ops : List Op) : consistent (run ops).1 :=
  consistent_foldl ops ([], 0) (fun r hr => absurd hr (List.not_mem_nil r))

/-- C2 witness: the invariant at a concrete operation sequence. -/
theorem reachable_consistent_witness :
    consistent (run [Op.submit 1 4 85 0 20 0 90 Income.low,
      Op.delete 2]).1 :=
  reachable_consistent [Op.submit 1 4 85 0 20 0 90 Income.low, Op.delete 2]

/-- C3: Predict & Save followed by `get_all_students` yields exactly one
row with the submitted `student_id`, and that row's `promotion_status` is
the classification rule applied to the submitted input fields. -/
theorem predict_and_save_roundtrip (s : Store) (student_id : Int)
    (satisfaction attendance : ℚ) (failed_courses commute disciplinary : Int)
    (homework : ℚ) (family_income : Income) (now : Nat) :
    ((get_all_students (Except.ok (predict_and_save s student_id satisfaction
        attendance failed_courses commute disciplinary homework family_income
        now))).countP (fun r => r.student_id == student_id) = 1) ∧
    ∀ r ∈ get_all_students (Except.ok (predict_and_save s student_id
        satisfaction attendance failed_courses commute disciplinary homework
        family_income now)),
      r.student_id = student_id →
        r.promotion_status = predict_promotion satisfaction attendance
          failed_courses commute disciplinary homework family_income := by
  constructor
  · rw [show get_all_students (Except.ok (predict_and_save s student_id
        satisfaction attendance failed_courses commute disciplinary homework
        family_income now)) = List.insertionSort byDateDesc
        (predict_and_save s student_id satisfaction attendance failed_courses
          commute disciplinary homework family_income now) from rfl]
    rw [(List.perm_insertionSort byDateDesc _).countP_eq]
    exact countP_insert_student_data s student_id satisfaction attendance
      failed_courses commute disciplinary homework family_income _ now
  · intro r hr hid
    have hr1 : r ∈ List.insertionSort byDateDesc (predict_and_save s
        student_id satisfaction attendance failed_courses commute disciplinary
        homework family_income now) := hr
    have hr2 : r ∈ predict_and_save s student_id satisfaction attendance
        failed_courses commute disciplinary homework family_income now := by
      simpa using hr1
    rcases mem_insert_student_data.mp hr2 with ⟨_, hne⟩ | rfl
    · exact absurd hid hne
    · rfl

/-- C3 witness: submitting student 1 on the empty table, the listed row
for key 1 is present and labelled by the rule. -/
theorem predict_and_save_roundtrip_witness :
    (mkRow 1 4 85 0 20 0 90 Income.low "Promoted" 0 ∈
      get_all_students (Except.ok (predict_and_save ([] : Store) 1 4 85 0 20
        0 90 Income.low 0))) ∧
    (mkRow 1 4 85 0 20 0 90 Income.low "Promoted" 0).student_id = 1 ∧
    (mkRow 1 4 85 0 20 0 90 Income.low "Promoted" 0).promotion_status =
      predict_promotion 4 85 0 20 0 90 Income.low :=
  have hstore : get_all_students (Except.ok (predict_and_save ([] : Store) 1
      4 85 0 20 0 90 Income.low 0)) =
      [mkRow 1 4 85 0 20 0 90 Income.low "Promoted" 0] := by decide
  have hmem : mkRow 1 4 85 0 20 0 90 Income.low "Promoted" 0 ∈
      get_all_students (Except.ok (predict_and_save ([] : Store) 1 4 85 0 20
        0 90 Income.low 0)) := by
    rw [hstore]
    exact List.mem_singleton.mpr rfl
  ⟨hmem, rfl,
    (predict_and_save_roundtrip [] 1 4 85 0 20 0 90 Income.low 0).2 _ hmem
      rfl⟩

/-- C4: the returned label never depends on `family_income`. -/
theorem predict_promotion_income_irrelevant (satisfaction attendance : ℚ)
    (failed_courses commute disciplinary : Int) (homework : ℚ)
    (income1 income2 : Income) :
    predict_promotion satisfaction attendance failed_courses commute
        disciplinary homework income1 =
      predict_promotion satisfaction attendance failed_courses commute
        disciplinary homework income2 := rfl

/-- C5: two upserts with the same key leave exactly one row with that
key, and that row is exactly the second payload (with the second write
time). -/
theorem insert_twice_same_key (s : Store) (id1 : Int) (sat1 att1 : ℚ)
    (f1 c1 d1 : Int) (hw1 : ℚ) (inc1 : Income) (st1 : String) (t1 : Nat)
    (id2 : Int) (sat2 att2 : ℚ) (f2 c2 d2 : Int) (hw2 : ℚ) (inc2 : Income)
    (st2 : String) (t2 : Nat) (h : id1 = id2) :
    ((insert_student_data
        (insert_student_data s id1 sat1 att1 f1 c1 d1 hw1 inc1 st1 t1)
        id2 sat2 att2 f2 c2 d2 hw2 inc2 st2 t2).countP
      (fun r => r.student_id == id1) = 1) ∧
    ∀ r ∈ insert_student_data
        (insert_student_data s id1 sat1 att1 f1 c1 d1 hw1 inc1 st1 t1)
        id2 sat2 att2 f2 c2 d2 hw2 inc2 st2 t2,
      r.student_id = id1 →
        r = mkRow id2 sat2 att2 f2 c2 d2 hw2 inc2 st2 t2 := by
  subst h
  refine ⟨countP_insert_student_data _ id1 sat2 att2 f2 c2 d2 hw2 inc2 st2 t2,
    ?_⟩
  intro r hr hid
  rcases mem_insert_student_data.mp hr with ⟨_, hne⟩ | rfl
  · exact absurd hid hne
  · rfl

/-- C5 witness: two upserts for student 1 on the empty table; the
surviving row for key 1 is exactly the second payload. -/
theorem insert_twice_same_key_witness :
    ((1 : Int) = 1) ∧
    (mkRow 1 4 85 0 20 0 90 Income.high "Promoted" 1 ∈
      insert_student_data (insert_student_data ([] : Store) 1 2 50 3 60 3 40
        Income.low "At Risk of Dropout" 0) 1 4 85 0 20 0 90 Income.high
        "Promoted" 1) ∧
    mkRow 1 4 85 0 20 0 90 Income.high "Promoted" 1 =
      mkRow 1 4 85 0 20 0 90 Income.high "Promoted" 1 :=
  have hstore : insert_student_data (insert_student_data ([] : Store) 1 2 50
      3 60 3 40 Income.low "At Risk of Dropout" 0) 1 4 85 0 20 0 90
      Income.high "Promoted" 1 =
      [mkRow 1 4 85 0 20 0 90 Income.high "Promoted" 1] := rfl
  have hmem : mkRow 1 4 85 0 20 0 90 Income.high "Promoted" 1 ∈
      insert_student_data (insert_student_data ([] : Store) 1 2 50 3 60 3 40
        Income.low "At Risk of Dropout" 0) 1 4 85 0 20 0 90 Income.high
        "Promoted" 1 := by
    rw [hstore]
    exact List.mem_singleton.mpr rfl
  ⟨rfl, hmem,
    (insert_twice_same_key [] 1 2 50 3 60 3 40 Income.low
      "At Risk of Dropout" 0 1 4 85 0 20 0 90 Income.high "Promoted" 1
      rfl).2 _ hmem rfl⟩

/-- C6: deleting a key not present in the store leaves the store
unchanged and reports success. -/
theorem delete_student_missing_noop (s : Store) (id : Int)
    (h : ∀ r ∈ s, r.student_id ≠ id) :
    delete_student s id = (s, true) := by
  unfold delete_student
  rw [List.filter_eq_self.mpr]
  intro a ha
  simpa [bne_iff_ne] using h a ha

/-- C6 witness: deleting id 2 from a store holding only id 1. -/
theorem delete_student_missing_noop_witness :
    (∀ r ∈ [mkRow 1 4 85 0 20 0 90 Income.low "Promoted" 0],
      r.student_id ≠ 2) ∧
    delete_student [mkRow 1 4 85 0 20 0 90 Income.low "Promoted" 0] 2 =
      ([mkRow 1 4 85 0 20 0 90 Income.low "Promoted" 0], true) :=
  have h : ∀ r ∈ [mkRow 1 4 85 0 20 0 90 Income.low "Promoted" 0],
      r.student_id ≠ 2 := by
    intro r hr
    rw [List.mem_singleton.mp hr]
    decide
  ⟨h, delete_student_missing_noop _ 2 h⟩

/-- C7: on a working database, `get_all_students` returns all stored
rows (a permutation of the table), ordered by `prediction_date`
descending, and returns the empty result on the empty table. -/
theorem get_all_students_complete_sorted (s : Store) :
    List.Perm (get_all_students (Except.ok s)) s ∧
    List.Sorted byDateDesc (get_all_students (Except.ok s)) ∧
    get_all_students (Except.ok ([] : Store)) = [] :=
  ⟨List.perm_insertionSort byDateDesc s,
    List.sorted_insertionSort byDateDesc s, rfl⟩

/-- C8: after an upsert, every row carrying the upserted key has its
`prediction_date` equal to the clock value at the write (the column
default), whether the key was fresh or replaced an older row. -/
theorem insert_refreshes_prediction_date (s : Store) (student_id : Int)
    (satisfaction attendance : ℚ) (failed_courses commute disciplinary : Int)
    (homework : ℚ) (family_income : Income) (promotion_status : String)
    (now : Nat) :
    ∀ r ∈ insert_student_data s student_id satisfaction attendance
        failed_courses commute disciplinary homework family_income
        promotion_status now,
      r.student_id = student_id → r.prediction_date = now := by
  intro r hr hid
  rcases mem_insert_student_data.mp hr with ⟨_, hne⟩ | rfl
  · exact absurd hid hne
  · rfl

/-- C8 witness: re-upserting student 1 over an old row written at time 5
leaves the key-1 row dated at the new write time 7. -/
theorem insert_refreshes_prediction_date_witness :
    (mkRow 1 4 85 0 20 0 90 Income.high "Promoted" 7 ∈
      insert_student_data [mkRow 1 2 50 3 60 3 40 Income.low
        "At Risk of Dropout" 5] 1 4 85 0 20 0 90 Income.high "Promoted" 7) ∧
    (mkRow 1 4 85 0 20 0 90 Income.high "Promoted" 7).student_id = 1 ∧
    (mkRow 1 4 85 0 20 0 90 Income.high "Promoted" 7).prediction_date = 7 :=
  have hstore : insert_student_data [mkRow 1 2 50 3 60 3 40 Income.low
      "At Risk of Dropout" 5] 1 4 85 0 20 0 90 Income.high "Promoted" 7 =
      [mkRow 1 4 85 0 20 0 90 Income.high "Promoted" 7] := rfl
  have hmem : mkRow 1 4 85 0 20 0 90 Income.high "Promoted" 7 ∈
      insert_student_data [mkRow 1 2 50 3 60 3 40 Income.low
        "At Risk of Dropout" 5] 1 4 85 0 20 0 90 Income.high "Promoted" 7 := by
    rw [hstore]
    exact List.mem_singleton.mpr rfl
  ⟨hmem, rfl,
    insert_refreshes_prediction_date [mkRow 1 2 50 3 60 3 40 Income.low
      "At Risk of Dropout" 5] 1 4 85 0 20 0 90 Income.high "Promoted" 7 _
      hmem rfl⟩

/-- C9: when the underlying database fails, `get_all_students` returns
the empty result — indistinguishable from reading a genuinely empty
table — and never propagates the failure (its result type is a plain
list of rows). -/
theorem get_all_students_error_empty (e : String) :
    get_all_students (Except.error e) = [] ∧
    get_all_students (Except.error e) =
      get_all_students (Except.ok ([] : Store)) :=
  ⟨rfl, rfl⟩

/-- C10: delete touches only rows carrying the given key: the result is a
sublist of the store (surviving rows unchanged, in order), every row with
a different key survives, and no surviving row carries the key. -/
theorem delete_student_frame (s : Store) (id : Int) :
    List.Sublist (delete_student s id).1 s ∧
    (∀ r ∈ s, r.student_id ≠ id → r ∈ (delete_student s id).1) ∧
    (∀ r ∈ (delete_student s id).1, r.student_id ≠ id) := by
  refine ⟨List.filter_sublist s, ?_, ?_⟩
  · intro r hr hne
    exact List.mem_filter.mpr ⟨hr, by simpa [bne_iff_ne] using hne⟩
  · intro r hr
    simpa [bne_iff_ne] using (List.mem_filter.mp hr).2

/-- C10 witness: deleting key 2 from a two-row store keeps the key-1 row. -/
theorem delete_student_frame_witness :
    (mkRow 1 4 85 0 20 0 90 Income.low "Promoted" 0 ∈
      ([mkRow 1 4 85 0 20 0 90 Income.low "Promoted" 0,
        mkRow 2 2 50 3 60 3 40 Income.high "At Risk of Dropout" 1] :
        Store)) ∧
    (mkRow 1 4 85 0 20 0 90 Income.low "Promoted" 0).student_id ≠ 2 ∧
    mkRow 1 4 85 0 20 0 90 Income.low "Promoted" 0 ∈
      (delete_student [mkRow 1 4 85 0 20 0 90 Income.low "Promoted" 0,
        mkRow 2 2 50 3 60 3 40 Income.high "At Risk of Dropout" 1] 2).1 :=
  have hmem : mkRow 1 4 85 0 20 0 90 Income.low "Promoted" 0 ∈
      ([mkRow 1 4 85 0 20 0 90 Income.low "Promoted" 0,
        mkRow 2 2 50 3 60 3 40 Income.high "At Risk of Dropout" 1] :
        Store) := List.mem_cons_self _ _
  have hne : (mkRow 1 4 85 0 20 0 90 Income.low "Promoted" 0).student_id ≠
      2 := by decide
  ⟨hmem, hne,
    (delete_student_frame [mkRow 1 4 85 0 20 0 90 Income.low "Promoted" 0,
      mkRow 2 2 50 3 60 3 40 Income.high "At Risk of Dropout" 1] 2).2.1 _
      hmem hne⟩

end Dropout
